import Mathlib

/-!
Shallow embedding of the static file server with remote-proxy fallback
(`server.ps1`).  Pure helper functions mirror the script's string and path
manipulation; each request handler returns the HTTP `Response` it builds
together with a trace of `Event`s (file-existence checks, file reads,
outbound GETs, log lines, output-stream closes), so that claims about
"no filesystem or network I/O" and "exactly one upstream attempt" are
statements about the trace.  The embedding uses a single `/` directory
separator and models the filesystem and the remote origin as oracles
(`String → Option _`) supplied per request.
-/

namespace ClimateProxy

/-- Drop every leading `/` from a list of characters
(the script's `TrimStart('/')`). -/
def dropLeadingSlashes : List Char → List Char
  | [] => []
  | c :: cs => if c = '/' then dropLeadingSlashes cs else c :: cs

/-- String form of `dropLeadingSlashes`: `"//a/b".TrimStart('/') = "a/b"`. -/
def trimStartSlashes (s : String) : String := ⟨dropLeadingSlashes s.data⟩

/-- Drop every trailing `/` (the script's `TrimEnd('/')` on the remote origin). -/
def trimEndSlashes (s : String) : String := ⟨(dropLeadingSlashes s.data.reverse).reverse⟩

/-- PowerShell `Join-Path`: parent and child joined with one separator,
redundant separators at the junction removed. -/
def joinPath (parent child : String) : String :=
  trimEndSlashes parent ++ "/" ++ trimStartSlashes child

/-- Lower-case both strings character-wise and compare
(ordinal case-insensitive equality, as in the PowerShell `-Regex` switch). -/
def eqCI (a b : String) : Bool := a.data.map Char.toLower == b.data.map Char.toLower

/-- Boolean list-model of "starts with". -/
def charsStartWith : List Char → List Char → Bool
  | _, [] => true
  | [], _ :: _ => false
  | a :: as, b :: bs => a == b && charsStartWith as bs

/-- The script's `$localFull.StartsWith($rootFull, OrdinalIgnoreCase)`:
`startsWithCI s t` holds when `s` begins with `t`, ignoring case. -/
def startsWithCI (s t : String) : Bool :=
  charsStartWith (s.data.map Char.toLower) (t.data.map Char.toLower)

/-- Split a path into its `/`-separated segments (accumulator = current
segment, reversed). -/
def splitSegsAux : List Char → List Char → List String
  | [], acc => [⟨acc.reverse⟩]
  | c :: cs, acc => if c = '/' then ⟨acc.reverse⟩ :: splitSegsAux cs [] else splitSegsAux cs (c :: acc)

/-- Segments of a path string. -/
def splitSegs (s : String) : List String := splitSegsAux s.data []

/-- Resolve `.` and `..` segments against a stack of already-kept segments
(head = innermost); `..` above the root is absorbed, as `GetFullPath` does. -/
def resolveSegs : List String → List String → List String
  | acc, [] => acc.reverse
  | acc, s :: rest =>
    if s = "" ∨ s = "." then resolveSegs acc rest
    else if s = ".." then resolveSegs acc.tail rest
    else resolveSegs (s :: acc) rest

/-- `System.IO.Path.GetFullPath` on an absolute path: normalize away `.`,
`..` and empty segments. -/
def getFullPath (s : String) : String :=
  "/" ++ String.intercalate "/" (resolveSegs [] (splitSegs s))

/-- Extension scanner over the reversed character list: collect characters
until the first `.` (result includes the dot) or a directory separator
(result empty); a dot with nothing after it yields the empty extension,
as `GetExtension` does. -/
def extAux : List Char → List Char → String
  | [], _ => ""
  | c :: cs, acc =>
    if c = '.' then (if acc.isEmpty then "" else ⟨'.' :: acc⟩)
    else if c = '/' ∨ c = '\\' then ""
    else extAux cs (c :: acc)

/-- `System.IO.Path.GetExtension`: the final extension of the last path
segment, including the leading dot, or `""` when there is none. -/
def getExtension (p : String) : String := extAux p.data.reverse []

/-- Character-wise lower-casing (`ToLowerInvariant`). -/
def toLowerStr (s : String) : String := ⟨s.data.map Char.toLower⟩

/-- The script's `Get-ContentType`: map the lower-cased file extension
through a fixed MIME table, defaulting to `application/octet-stream`. -/
def getContentType (path : String) : String :=
  let ext := toLowerStr (getExtension path)
  if ext = ".html" then "text/html; charset=utf-8"
  else if ext = ".htm" then "text/html; charset=utf-8"
  else if ext = ".js" then "text/javascript; charset=utf-8"
  else if ext = ".mjs" then "text/javascript; charset=utf-8"
  else if ext = ".css" then "text/css; charset=utf-8"
  else if ext = ".json" then "application/json; charset=utf-8"
  else if ext = ".svg" then "image/svg+xml"
  else if ext = ".png" then "image/png"
  else if ext = ".jpg" then "image/jpeg"
  else if ext = ".jpeg" then "image/jpeg"
  else if ext = ".gif" then "image/gif"
  else if ext = ".ico" then "image/x-icon"
  else if ext = ".webp" then "image/webp"
  else if ext = ".woff" then "font/woff"
  else if ext = ".woff2" then "font/woff2"
  else "application/octet-stream"

/-- The extensions the table recognizes; everything else falls to the default. -/
def knownExtensions : List String :=
  [".html", ".htm", ".js", ".mjs", ".css", ".json", ".svg", ".png",
   ".jpg", ".jpeg", ".gif", ".ico", ".webp", ".woff", ".woff2"]

/-- UTF-8 encoding of one character (`System.Text.Encoding.UTF8.GetBytes`). -/
def utf8EncodeChar (c : Char) : List Nat :=
  let n := c.toNat
  if n < 0x80 then [n]
  else if n < 0x800 then [0xC0 ||| (n >>> 6), 0x80 ||| (n &&& 0x3F)]
  else if n < 0x10000 then
    [0xE0 ||| (n >>> 12), 0x80 ||| ((n >>> 6) &&& 0x3F), 0x80 ||| (n &&& 0x3F)]
  else
    [0xF0 ||| (n >>> 18), 0x80 ||| ((n >>> 12) &&& 0x3F),
     0x80 ||| ((n >>> 6) &&& 0x3F), 0x80 ||| (n &&& 0x3F)]

/-- UTF-8 bytes of a string, each byte a `Nat` below 256. -/
def utf8Bytes (s : String) : List Nat := s.data.flatMap utf8EncodeChar

/-- The path component of an absolute URL (`([System.Uri]$url).AbsolutePath`):
everything from the first `/` after `scheme://` up to the query string. -/
def uriAbsolutePath (url : String) : String :=
  match url.splitOn "://" with
  | _ :: rest@(_ :: _) =>
    let afterScheme := String.intercalate "://" rest
    let pathAndQuery := afterScheme.data.dropWhile (fun c => !(c == '/'))
    let path : String := ⟨pathAndQuery.takeWhile (fun c => !(c == '?'))⟩
    if path = "" then "/" else path
  | _ => url

/-- Observable side effects of handling one request. -/
inductive Event where
  /-- `Test-Path ... -PathType Leaf` on a local path. -/
  | fsTest (path : String)
  /-- `[System.IO.File]::ReadAllBytes` on a local path. -/
  | fsRead (path : String)
  /-- An outbound `GET` issued by the proxy. -/
  | remoteGet (url : String)
  /-- A `Write-Log -Level Error` line (the environmental exception detail is
  abstracted away; the message keeps the part the script interpolates). -/
  | logError (msg : String)
  /-- `$Context.Response.OutputStream.Close()`. -/
  | closeStream
deriving DecidableEq, Repr

/-- An HTTP response as the script assembles it on `HttpListenerResponse`. -/
structure Response where
  statusCode : Nat
  contentType : String
  headers : List (String × String)
  contentLength : Nat
  body : List Nat
deriving DecidableEq, Repr

/-- The script's `Send-Text`: a plain-text response; the output stream is
closed before returning. -/
def sendText (status : Nat) (text : String) : Response × List Event :=
  ({ statusCode := status
     contentType := "text/plain; charset=utf-8"
     headers := []
     contentLength := (utf8Bytes text).length
     body := utf8Bytes text },
   [Event.closeStream])

/-- The cache-disabling headers `Send-LocalFile` always sets. -/
def cacheHeaders : List (String × String) :=
  [("Cache-Control", "no-cache, no-store, must-revalidate"),
   ("Pragma", "no-cache"),
   ("Expires", "0")]

/-- The script's `Send-LocalFile`: read the whole file (`fsRead` oracle,
`none` = I/O failure) and send it with status 200, the MIME type from the
extension table and the no-cache headers; on failure log and fall back to a
500 text response.  The `finally` close of the output stream ends the trace
on both paths. -/
def sendLocalFile (fsRead : String → Option (List Nat)) (filePath : String) :
    Response × List Event :=
  match fsRead filePath with
  | some bytes =>
    ({ statusCode := 200
       contentType := getContentType filePath
       headers := cacheHeaders
       contentLength := bytes.length
       body := bytes },
     [Event.fsRead filePath, Event.closeStream])
  | none =>
    let st := sendText 500 "Internal Server Error"
    (st.1,
     [Event.fsRead filePath, Event.logError "Send-LocalFile error"] ++ st.2 ++ [Event.closeStream])

/-- A remote origin's answer, as observed after `HttpClient` has applied its
automatic decompression: `body` is the decompressed byte sequence,
`contentTypeHeader` the typed `Content-Type` of the content headers,
`respHeaders` the response-level (transport) headers and `contentHeaders`
the remaining content-level headers, values already joined with `", "`. -/
structure RemoteResp where
  status : Nat
  contentTypeHeader : Option String
  respHeaders : List (String × String)
  contentHeaders : List (String × String)
  body : List Nat
deriving DecidableEq, Repr

/-- Transport-level headers the relay refuses to copy. -/
def transportBlocklist : List String :=
  ["Transfer-Encoding", "Connection", "Keep-Alive", "Content-Encoding",
   "Content-Length", "Set-Cookie"]

/-- Content-level headers the relay refuses to copy. -/
def contentBlocklist : List String :=
  ["Content-Type", "Content-Length", "Content-Encoding"]

/-- Case-insensitive membership in a header blocklist (the `switch -Regex`
anchored alternation of the script is case-insensitive). -/
def inBlocklistCI (blocklist : List String) (name : String) : Bool :=
  blocklist.any (fun b => eqCI name b)

/-- The script's `Proxy-RemoteRequest`: one `GET` of `remoteUrl` (the
`remote` oracle, `none` = timeout/DNS/transport failure).  On success the
remote status is copied, the content type comes from the remote
`Content-Type` header or, failing that, from the URL's path extension, the
headers are relayed minus the two blocklists, and `Content-Length` is the
decompressed body's length.  On failure the script logs the URL and sends a
502 text response.  Both paths close the output stream in `finally`. -/
def proxyRemoteRequest (remote : String → Option RemoteResp) (remoteUrl : String) :
    Response × List Event :=
  match remote remoteUrl with
  | some rr =>
    let ct := match rr.contentTypeHeader with
      | some c => c
      | none => getContentType (uriAbsolutePath remoteUrl)
    ({ statusCode := rr.status
       contentType := ct
       headers :=
         rr.respHeaders.filter (fun h => !(inBlocklistCI transportBlocklist h.1)) ++
         rr.contentHeaders.filter (fun h => !(inBlocklistCI contentBlocklist h.1))
       contentLength := rr.body.length
       body := rr.body },
     [Event.remoteGet remoteUrl, Event.closeStream])
  | none =>
    let st := sendText 502 "Bad Gateway"
    (st.1,
     [Event.remoteGet remoteUrl, Event.logError ("Proxy error: " ++ remoteUrl)] ++ st.2 ++
       [Event.closeStream])

/-- One accepted request: `absPath` is `$req.Url.AbsolutePath`, `rawUrl` the
raw path plus query (`$req.RawUrl`). -/
structure Request where
  absPath : String
  rawUrl : String
deriving DecidableEq, Repr

/-- URL-to-local-file mapping of `Start-StaticServer`: `/` maps to
`index.html` under the root, any other path is joined onto the root with its
leading slashes trimmed. -/
def localPathFor (rootFull absPath : String) : String :=
  if absPath = "/" then joinPath rootFull "index.html"
  else joinPath rootFull (trimStartSlashes absPath)

/-- The loop body of `Start-StaticServer` for one request: map the URL to a
candidate local file, normalize it, reject with 403 when the normal form no
longer starts (case-insensitively) with the root, otherwise serve the local
file when it exists and proxy to the remote origin when it does not. -/
def handleRequest (rootFull remoteOrigin : String)
    (fsTest : String → Bool) (fsRead : String → Option (List Nat))
    (remote : String → Option RemoteResp) (req : Request) :
    Response × List Event :=
  let localPath := localPathFor rootFull req.absPath
  let localFull := getFullPath localPath
  if !(startsWithCI localFull rootFull) then
    sendText 403 "Forbidden"
  else if fsTest localFull then
    let r := sendLocalFile fsRead localFull
    (r.1, Event.fsTest localFull :: r.2)
  else
    let r := proxyRemoteRequest remote (trimEndSlashes remoteOrigin ++ req.rawUrl)
    (r.1, Event.fsTest localFull :: r.2)

/-- The generic 500 answer the dispatch loop's `catch` sends. -/
def internalError500 : Response := (sendText 500 "Internal Server Error").1

/-- The per-iteration `try/catch` of the accept loop: a handler that raises
is converted into the generic 500 response for that request. -/
def handleOne (h : Request → Except String Response) (req : Request) : Response :=
  match h req with
  | Except.ok r => r
  | Except.error _ => internalError500

/-- The script's `Start-StaticServer` over a finite request stream: resolve
the root, abort before listening when it does not exist, otherwise answer
every request in order, each through the loop-boundary `catch`.  The handler
`h` is the (possibly raising) body of one iteration. -/
def startStaticServer (dirTest : String → Bool) (root : String)
    (h : Request → Except String Response) (reqs : List Request) :
    Except String (List Response) :=
  let rootFull := getFullPath root
  if dirTest rootFull then Except.ok (reqs.map (handleOne h))
  else Except.error ("Root directory not found: " ++ rootFull)

/-- Recognize an outbound GET in a trace. -/
def isRemoteGet : Event → Bool
  | Event.remoteGet _ => true
  | _ => false

/-- Recognize filesystem touches (existence checks and reads) in a trace. -/
def isFsEvent : Event → Bool
  | Event.fsTest _ => true
  | Event.fsRead _ => true
  | _ => false

/-- Number of outbound GETs in a trace. -/
def countRemoteGets (es : List Event) : Nat := (es.filter isRemoteGet).length

end ClimateProxy

namespace ClimateProxy

/-- Spec-side stripping of the single leading slash of a request path. -/
def stripOneLeadingSlash (p : String) : String :=
  match p.data with
  | [] => p
  | c :: rest => if c = '/' then ⟨rest⟩ else p

/-- Spec-side candidate resolution, written from the specification's words:
for `/` the candidate is `rootDir/index.html`, otherwise `rootDir` joined
with the request path minus its leading slash.  To be compared with the
source-side `localPathFor`. -/
def resolveCandidateSpec (rootDir p : String) : String :=
  if p = "/" then joinPath rootDir "index.html"
  else joinPath rootDir (stripOneLeadingSlash p)

theorem dropLeadingSlashes_idem (l : List Char) :
    dropLeadingSlashes (dropLeadingSlashes l) = dropLeadingSlashes l := by
  induction l with
  | nil => rfl
  | cons c cs ih =>
    by_cases hc : c = '/'
    · simp [dropLeadingSlashes, hc, ih]
    · simp [dropLeadingSlashes, hc]

theorem trimStartSlashes_idem (p : String) :
    trimStartSlashes (trimStartSlashes p) = trimStartSlashes p := by
  unfold trimStartSlashes
  exact congrArg String.mk (dropLeadingSlashes_idem p.data)

theorem trimStartSlashes_stripOne (p : String) :
    trimStartSlashes (stripOneLeadingSlash p) = trimStartSlashes p := by
  unfold trimStartSlashes stripOneLeadingSlash
  cases hd : p.data with
  | nil => simp [hd]
  | cons c rest =>
    by_cases hc : c = '/'
    · simp [hc, hd, dropLeadingSlashes]
    · simp [hc, hd]

/-- C1: a request path whose normalized local form escapes the root (the
normal form no longer starts, case-insensitively, with the root) is answered
403 `Forbidden`, and the trace holds no filesystem or network event — only
the closing of the client's output stream. -/
theorem C1_traversal_403_no_io (rootFull remoteOrigin : String)
    (fsTest : String → Bool) (fsRead : String → Option (List Nat))
    (remote : String → Option RemoteResp) (req : Request)
    (h : startsWithCI (getFullPath (localPathFor rootFull req.absPath)) rootFull = false) :
    (handleRequest rootFull remoteOrigin fsTest fsRead remote req).1.statusCode = 403 ∧
    (handleRequest rootFull remoteOrigin fsTest fsRead remote req).1.body = utf8Bytes "Forbidden" ∧
    (handleRequest rootFull remoteOrigin fsTest fsRead remote req).2 = [Event.closeStream] := by
  refine ⟨?_, ?_, ?_⟩ <;> simp [handleRequest, h, sendText]

/-- Witness for C1 at the spec's own scenario `GET /../../etc/passwd`. -/
theorem C1_traversal_403_no_io_witness :
    startsWithCI (getFullPath (localPathFor "/srv/public" "/../../etc/passwd")) "/srv/public" = false ∧
    ((handleRequest "/srv/public" "https://example.com" (fun _ => false) (fun _ => none)
        (fun _ => none) ⟨"/../../etc/passwd", "/../../etc/passwd"⟩).1.statusCode = 403 ∧
     (handleRequest "/srv/public" "https://example.com" (fun _ => false) (fun _ => none)
        (fun _ => none) ⟨"/../../etc/passwd", "/../../etc/passwd"⟩).1.body = utf8Bytes "Forbidden" ∧
     (handleRequest "/srv/public" "https://example.com" (fun _ => false) (fun _ => none)
        (fun _ => none) ⟨"/../../etc/passwd", "/../../etc/passwd"⟩).2 = [Event.closeStream]) :=
  ⟨by decide,
   C1_traversal_403_no_io "/srv/public" "https://example.com" (fun _ => false) (fun _ => none)
     (fun _ => none) ⟨"/../../etc/passwd", "/../../etc/passwd"⟩ (by decide)⟩

/-- C2: the source's URL-to-file mapping coincides with the specification's:
`/` resolves to `rootDir/index.html`, every other path to `rootDir` joined
with the path minus its leading slash. -/
theorem C2_candidate_resolution (rootFull p : String) :
    localPathFor rootFull p = resolveCandidateSpec rootFull p := by
  unfold localPathFor resolveCandidateSpec
  by_cases hp : p = "/"
  · simp [hp]
  · simp [hp, joinPath, trimStartSlashes_idem, trimStartSlashes_stripOne]

theorem getContentType_default (q : String)
    (h : toLowerStr (getExtension q) ∉ knownExtensions) :
    getContentType q = "application/octet-stream" := by
  unfold getContentType
  simp only [knownExtensions, List.mem_cons, List.not_mem_nil, or_false, not_or] at h
  obtain ⟨e1, e2, e3, e4, e5, e6, e7, e8, e9, e10, e11, e12, e13, e14, e15⟩ := h
  simp [e1, e2, e3, e4, e5, e6, e7, e8, e9, e10, e11, e12, e13, e14, e15]

/-- C3: a request whose normalized candidate stays under the root and names
an existing readable file is answered 200 with the MIME type the extension
table assigns, a body equal to the file's bytes and a `Content-Length` equal
to the byte count read; the table is total, sending unknown extensions to
`application/octet-stream`. -/
theorem C3_local_file_served (rootFull remoteOrigin : String)
    (fsTest : String → Bool) (fsRead : String → Option (List Nat))
    (remote : String → Option RemoteResp) (req : Request) (bytes : List Nat)
    (hchk : startsWithCI (getFullPath (localPathFor rootFull req.absPath)) rootFull = true)
    (hex : fsTest (getFullPath (localPathFor rootFull req.absPath)) = true)
    (hrd : fsRead (getFullPath (localPathFor rootFull req.absPath)) = some bytes) :
    (handleRequest rootFull remoteOrigin fsTest fsRead remote req).1.statusCode = 200 ∧
    (handleRequest rootFull remoteOrigin fsTest fsRead remote req).1.contentType =
      getContentType (getFullPath (localPathFor rootFull req.absPath)) ∧
    (handleRequest rootFull remoteOrigin fsTest fsRead remote req).1.body = bytes ∧
    (handleRequest rootFull remoteOrigin fsTest fsRead remote req).1.contentLength = bytes.length ∧
    (∀ q : String, toLowerStr (getExtension q) ∉ knownExtensions →
      getContentType q = "application/octet-stream") := by
  refine ⟨?_, ?_, ?_, ?_, fun q hq => getContentType_default q hq⟩ <;>
    simp [handleRequest, hchk, hex, sendLocalFile, hrd]

/-- Witness for C3: `GET /index.html` with the file present under the root. -/
theorem C3_local_file_served_witness :
    (handleRequest "/srv/public" "https://example.com"
        (fun p => p == "/srv/public/index.html")
        (fun p => if p == "/srv/public/index.html" then some [60, 104] else none)
        (fun _ => none) ⟨"/index.html", "/index.html"⟩).1.statusCode = 200 ∧
    (handleRequest "/srv/public" "https://example.com"
        (fun p => p == "/srv/public/index.html")
        (fun p => if p == "/srv/public/index.html" then some [60, 104] else none)
        (fun _ => none) ⟨"/index.html", "/index.html"⟩).1.contentType =
      getContentType (getFullPath (localPathFor "/srv/public" "/index.html")) ∧
    (handleRequest "/srv/public" "https://example.com"
        (fun p => p == "/srv/public/index.html")
        (fun p => if p == "/srv/public/index.html" then some [60, 104] else none)
        (fun _ => none) ⟨"/index.html", "/index.html"⟩).1.body = [60, 104] ∧
    (handleRequest "/srv/public" "https://example.com"
        (fun p => p == "/srv/public/index.html")
        (fun p => if p == "/srv/public/index.html" then some [60, 104] else none)
        (fun _ => none) ⟨"/index.html", "/index.html"⟩).1.contentLength = 2 ∧
    getContentType "/srv/public/data.xyz" = "application/octet-stream" := by
  have h := C3_local_file_served "/srv/public" "https://example.com"
    (fun p => p == "/srv/public/index.html")
    (fun p => if p == "/srv/public/index.html" then some [60, 104] else none)
    (fun _ => none) ⟨"/index.html", "/index.html"⟩ [60, 104]
    (by decide) (by decide) (by decide)
  exact ⟨h.1, h.2.1, h.2.2.1, h.2.2.2.1, h.2.2.2.2 "/srv/public/data.xyz" (by decide)⟩

end ClimateProxy

namespace ClimateProxy

/-- Counterexample to C4 as stated: with the remote origin configured as
`https://example.com/` (trailing slash) and request `/x.js`, the outbound
GET goes to `https://example.com/x.js`, not to the claim's plain
concatenation `https://example.com/` + `/x.js`. -/
theorem C4_counterexample :
    Event.remoteGet ("https://example.com/" ++ "/x.js") ∉
      (handleRequest "/srv/public" "https://example.com/" (fun _ => false) (fun _ => none)
        (fun _ => none) ⟨"/x.js", "/x.js"⟩).2 ∧
    Event.remoteGet "https://example.com/x.js" ∈
      (handleRequest "/srv/public" "https://example.com/" (fun _ => false) (fun _ => none)
        (fun _ => none) ⟨"/x.js", "/x.js"⟩).2 := by
  decide

/-- C4 (amended): when the candidate stays under the root but no local file
exists, exactly one outbound GET is issued, to the remote origin with its
trailing slashes trimmed concatenated with the raw request path plus query;
on success the remote status is copied verbatim and the content type comes
from the remote `Content-Type` header when present, otherwise from the
URL's path extension through the same MIME table. -/
theorem C4_proxy_forwarding (rootFull remoteOrigin : String)
    (fsTest : String → Bool) (fsRead : String → Option (List Nat))
    (remote : String → Option RemoteResp) (req : Request)
    (hchk : startsWithCI (getFullPath (localPathFor rootFull req.absPath)) rootFull = true)
    (hmiss : fsTest (getFullPath (localPathFor rootFull req.absPath)) = false) :
    countRemoteGets (handleRequest rootFull remoteOrigin fsTest fsRead remote req).2 = 1 ∧
    Event.remoteGet (trimEndSlashes remoteOrigin ++ req.rawUrl) ∈
      (handleRequest rootFull remoteOrigin fsTest fsRead remote req).2 ∧
    (∀ rr : RemoteResp, remote (trimEndSlashes remoteOrigin ++ req.rawUrl) = some rr →
      (handleRequest rootFull remoteOrigin fsTest fsRead remote req).1.statusCode = rr.status ∧
      (∀ c, rr.contentTypeHeader = some c →
        (handleRequest rootFull remoteOrigin fsTest fsRead remote req).1.contentType = c) ∧
      (rr.contentTypeHeader = none →
        (handleRequest rootFull remoteOrigin fsTest fsRead remote req).1.contentType =
          getContentType (uriAbsolutePath (trimEndSlashes remoteOrigin ++ req.rawUrl)))) := by
  cases hr : remote (trimEndSlashes remoteOrigin ++ req.rawUrl) with
  | none =>
    refine ⟨?_, ?_, fun rr hrr => by simp at hrr⟩ <;>
      simp [handleRequest, hchk, hmiss, proxyRemoteRequest, hr, countRemoteGets, isRemoteGet,
        sendText]
  | some rr0 =>
    refine ⟨?_, ?_, fun rr hrr => ?_⟩
    · simp [handleRequest, hchk, hmiss, proxyRemoteRequest, hr, countRemoteGets, isRemoteGet]
    · simp [handleRequest, hchk, hmiss, proxyRemoteRequest, hr]
    · have hrr0 : rr = rr0 := (Option.some.inj hrr).symm
      subst hrr0
      refine ⟨?_, ?_, ?_⟩
      · simp [handleRequest, hchk, hmiss, proxyRemoteRequest, hr]
      · intro c hc
        simp [handleRequest, hchk, hmiss, proxyRemoteRequest, hr, hc]
      · intro hc
        simp [handleRequest, hchk, hmiss, proxyRemoteRequest, hr, hc]

/-- Witness for C4 (amended): `GET /missing.js` with no local file, the
remote answering 404 with an explicit `Content-Type`. -/
theorem C4_proxy_forwarding_witness :
    countRemoteGets (handleRequest "/srv/public" "https://example.com" (fun _ => false)
      (fun _ => none)
      (fun u => if u == "https://example.com/missing.js"
        then some ⟨404, some "text/plain", [], [], [1, 2]⟩ else none)
      ⟨"/missing.js", "/missing.js"⟩).2 = 1 ∧
    Event.remoteGet (trimEndSlashes "https://example.com" ++ "/missing.js") ∈
      (handleRequest "/srv/public" "https://example.com" (fun _ => false)
        (fun _ => none)
        (fun u => if u == "https://example.com/missing.js"
          then some ⟨404, some "text/plain", [], [], [1, 2]⟩ else none)
        ⟨"/missing.js", "/missing.js"⟩).2 ∧
    (handleRequest "/srv/public" "https://example.com" (fun _ => false)
      (fun _ => none)
      (fun u => if u == "https://example.com/missing.js"
        then some ⟨404, some "text/plain", [], [], [1, 2]⟩ else none)
      ⟨"/missing.js", "/missing.js"⟩).1.statusCode = 404 ∧
    (handleRequest "/srv/public" "https://example.com" (fun _ => false)
      (fun _ => none)
      (fun u => if u == "https://example.com/missing.js"
        then some ⟨404, some "text/plain", [], [], [1, 2]⟩ else none)
      ⟨"/missing.js", "/missing.js"⟩).1.contentType = "text/plain" := by
  have h := C4_proxy_forwarding "/srv/public" "https://example.com" (fun _ => false)
    (fun _ => none)
    (fun u => if u == "https://example.com/missing.js"
      then some ⟨404, some "text/plain", [], [], [1, 2]⟩ else none)
    ⟨"/missing.js", "/missing.js"⟩ (by decide) (by decide)
  have h3 := h.2.2 ⟨404, some "text/plain", [], [], [1, 2]⟩ (by decide)
  exact ⟨h.1, h.2.1, h3.1, h3.2.1 "text/plain" rfl⟩

theorem eqCI_false_of_not_blocked (blocklist : List String) (n t : String)
    (ht : t ∈ blocklist) (h : inBlocklistCI blocklist n = false) : eqCI n t = false := by
  unfold inBlocklistCI at h
  rw [List.any_eq_false] at h
  simpa using h t ht

/-- C5: on a successful proxy, the relayed headers are exactly the remote
transport-level headers minus the transport blocklist followed by the remote
content-level headers minus the content blocklist; no surviving header is
named `Content-Encoding` (case-insensitively), and `Content-Length` is the
decompressed body's byte count. -/
theorem C5_header_relay (remote : String → Option RemoteResp) (url : String)
    (rr : RemoteResp) (h : remote url = some rr) :
    (proxyRemoteRequest remote url).1.headers =
      rr.respHeaders.filter (fun p => !(inBlocklistCI transportBlocklist p.1)) ++
      rr.contentHeaders.filter (fun p => !(inBlocklistCI contentBlocklist p.1)) ∧
    (∀ p ∈ (proxyRemoteRequest remote url).1.headers, eqCI p.1 "Content-Encoding" = false) ∧
    (proxyRemoteRequest remote url).1.contentLength = rr.body.length := by
  refine ⟨by simp [proxyRemoteRequest, h], ?_, by simp [proxyRemoteRequest, h]⟩
  intro p hp
  simp only [proxyRemoteRequest, h] at hp
  rcases List.mem_append.mp hp with hmem | hmem
  · have hb := (List.mem_filter.mp hmem).2
    refine eqCI_false_of_not_blocked transportBlocklist p.1 "Content-Encoding"
      (by simp [transportBlocklist]) ?_
    simpa using hb
  · have hb := (List.mem_filter.mp hmem).2
    refine eqCI_false_of_not_blocked contentBlocklist p.1 "Content-Encoding"
      (by simp [contentBlocklist]) ?_
    simpa using hb

/-- Witness for C5: a remote response carrying a custom header, a
`Content-Encoding: gzip` and a `Set-Cookie` among the transport headers and
a `Content-Type` among the content headers; only the custom header survives,
and `Content-Length` is the decompressed size. -/
theorem C5_header_relay_witness :
    (proxyRemoteRequest
      (fun _ => some ⟨200, some "text/html",
        [("X-Test", "1"), ("Content-Encoding", "gzip"), ("Set-Cookie", "a=b")],
        [("Content-Type", "text/html")], [1, 2, 3]⟩) "https://example.com/a").1.headers =
      [("X-Test", "1")] ∧
    eqCI "X-Test" "Content-Encoding" = false ∧
    (proxyRemoteRequest
      (fun _ => some ⟨200, some "text/html",
        [("X-Test", "1"), ("Content-Encoding", "gzip"), ("Set-Cookie", "a=b")],
        [("Content-Type", "text/html")], [1, 2, 3]⟩) "https://example.com/a").1.contentLength = 3 := by
  have h := C5_header_relay
    (fun _ => some ⟨200, some "text/html",
      [("X-Test", "1"), ("Content-Encoding", "gzip"), ("Set-Cookie", "a=b")],
      [("Content-Type", "text/html")], [1, 2, 3]⟩) "https://example.com/a"
    ⟨200, some "text/html",
      [("X-Test", "1"), ("Content-Encoding", "gzip"), ("Set-Cookie", "a=b")],
      [("Content-Type", "text/html")], [1, 2, 3]⟩ rfl
  refine ⟨h.1.trans (by decide), ?_, h.2.2⟩
  exact h.2.1 ("X-Test", "1") (by rw [h.1]; decide)

/-- C6: when the upstream GET fails, the request is answered 502
`Bad Gateway` as plain text, the failure is logged with the remote URL, and
the trace holds exactly one outbound GET — one upstream attempt, no retry;
the handler still returns a response, so the serving process survives. -/
theorem C6_proxy_failure_502 (rootFull remoteOrigin : String)
    (fsTest : String → Bool) (fsRead : String → Option (List Nat))
    (remote : String → Option RemoteResp) (req : Request)
    (hchk : startsWithCI (getFullPath (localPathFor rootFull req.absPath)) rootFull = true)
    (hmiss : fsTest (getFullPath (localPathFor rootFull req.absPath)) = false)
    (hfail : remote (trimEndSlashes remoteOrigin ++ req.rawUrl) = none) :
    (handleRequest rootFull remoteOrigin fsTest fsRead remote req).1.statusCode = 502 ∧
    (handleRequest rootFull remoteOrigin fsTest fsRead remote req).1.body =
      utf8Bytes "Bad Gateway" ∧
    (handleRequest rootFull remoteOrigin fsTest fsRead remote req).1.contentType =
      "text/plain; charset=utf-8" ∧
    Event.logError ("Proxy error: " ++ (trimEndSlashes remoteOrigin ++ req.rawUrl)) ∈
      (handleRequest rootFull remoteOrigin fsTest fsRead remote req).2 ∧
    countRemoteGets (handleRequest rootFull remoteOrigin fsTest fsRead remote req).2 = 1 := by
  refine ⟨?_, ?_, ?_, ?_, ?_⟩ <;>
    simp [handleRequest, hchk, hmiss, proxyRemoteRequest, hfail, sendText,
      countRemoteGets, isRemoteGet]

/-- Witness for C6: `GET /missing.js` with no local file and a failing
upstream. -/
theorem C6_proxy_failure_502_witness :
    (handleRequest "/srv/public" "https://example.com" (fun _ => false) (fun _ => none)
      (fun _ => none) ⟨"/missing.js", "/missing.js"⟩).1.statusCode = 502 ∧
    (handleRequest "/srv/public" "https://example.com" (fun _ => false) (fun _ => none)
      (fun _ => none) ⟨"/missing.js", "/missing.js"⟩).1.body = utf8Bytes "Bad Gateway" ∧
    (handleRequest "/srv/public" "https://example.com" (fun _ => false) (fun _ => none)
      (fun _ => none) ⟨"/missing.js", "/missing.js"⟩).1.contentType =
      "text/plain; charset=utf-8" ∧
    Event.logError ("Proxy error: " ++ (trimEndSlashes "https://example.com" ++ "/missing.js")) ∈
      (handleRequest "/srv/public" "https://example.com" (fun _ => false) (fun _ => none)
        (fun _ => none) ⟨"/missing.js", "/missing.js"⟩).2 ∧
    countRemoteGets ((handleRequest "/srv/public" "https://example.com" (fun _ => false)
      (fun _ => none) (fun _ => none) ⟨"/missing.js", "/missing.js"⟩).2) = 1 :=
  C6_proxy_failure_502 "/srv/public" "https://example.com" (fun _ => false) (fun _ => none)
    (fun _ => none) ⟨"/missing.js", "/missing.js"⟩ (by decide) (by decide) rfl

end ClimateProxy

namespace ClimateProxy

/-- C7: when reading an existing local file fails, the response is 500 with
the generic text body (nothing of the error reaches the client beyond the
status), the failure is logged, and the output stream is closed; on the
successful read the stream is closed as well — every exit path of the
local-file branch closes it. -/
theorem C7_read_failure_500_close (fsRead : String → Option (List Nat)) (filePath : String) :
    (fsRead filePath = none →
      (sendLocalFile fsRead filePath).1.statusCode = 500 ∧
      (sendLocalFile fsRead filePath).1.body = utf8Bytes "Internal Server Error" ∧
      (sendLocalFile fsRead filePath).1.contentType = "text/plain; charset=utf-8" ∧
      Event.logError "Send-LocalFile error" ∈ (sendLocalFile fsRead filePath).2 ∧
      Event.closeStream ∈ (sendLocalFile fsRead filePath).2) ∧
    (∀ bytes, fsRead filePath = some bytes →
      Event.closeStream ∈ (sendLocalFile fsRead filePath).2) := by
  constructor
  · intro hf
    refine ⟨?_, ?_, ?_, ?_, ?_⟩ <;> simp [sendLocalFile, hf, sendText]
  · intro bytes hb
    simp [sendLocalFile, hb]

/-- Witness for C7: a read that fails and a read that succeeds, both closing
the stream. -/
theorem C7_read_failure_500_close_witness :
    ((sendLocalFile (fun _ => none) "/srv/public/a.txt").1.statusCode = 500 ∧
     (sendLocalFile (fun _ => none) "/srv/public/a.txt").1.body =
       utf8Bytes "Internal Server Error" ∧
     (sendLocalFile (fun _ => none) "/srv/public/a.txt").1.contentType =
       "text/plain; charset=utf-8" ∧
     Event.logError "Send-LocalFile error" ∈ (sendLocalFile (fun _ => none) "/srv/public/a.txt").2 ∧
     Event.closeStream ∈ (sendLocalFile (fun _ => none) "/srv/public/a.txt").2) ∧
    Event.closeStream ∈ (sendLocalFile (fun _ => some [7]) "/srv/public/a.txt").2 :=
  ⟨(C7_read_failure_500_close (fun _ => none) "/srv/public/a.txt").1 rfl,
   (C7_read_failure_500_close (fun _ => some [7]) "/srv/public/a.txt").2 [7] rfl⟩

/-- C8: the accept loop answers every request of the stream — a handler that
raises on some request is caught at the loop boundary and that request is
answered with the generic 500, the loop never aborting; a missing root
directory, and only that, is fatal, failing the server before any request is
handled. -/
theorem C8_loop_resilience (dirTest : String → Bool) (root : String)
    (h : Request → Except String Response) (reqs : List Request) :
    (dirTest (getFullPath root) = true →
      startStaticServer dirTest root h reqs = Except.ok (reqs.map (handleOne h)) ∧
      (reqs.map (handleOne h)).length = reqs.length ∧
      (∀ req e, h req = Except.error e → handleOne h req = internalError500) ∧
      (∀ req r, h req = Except.ok r → handleOne h req = r)) ∧
    (dirTest (getFullPath root) = false →
      startStaticServer dirTest root h reqs =
        Except.error ("Root directory not found: " ++ getFullPath root)) := by
  constructor
  · intro hd
    refine ⟨by simp [startStaticServer, hd], List.length_map _ _, ?_, ?_⟩
    · intro req e he
      simp [handleOne, he]
    · intro req r hr
      simp [handleOne, hr]
  · intro hd
    simp [startStaticServer, hd]

/-- Witness for C8: a two-request stream whose handler raises on the second
request only; the server still answers both, the second with the generic
500; and a missing root aborts with the startup error. -/
theorem C8_loop_resilience_witness :
    startStaticServer (fun _ => true) "/srv/public"
      (fun r => if r.absPath == "/boom" then Except.error "boom" else Except.ok internalError500)
      [⟨"/", "/"⟩, ⟨"/boom", "/boom"⟩] =
      Except.ok ([⟨"/", "/"⟩, ⟨"/boom", "/boom"⟩].map (handleOne
        (fun r => if r.absPath == "/boom" then Except.error "boom"
          else Except.ok internalError500))) ∧
    handleOne (fun r => if r.absPath == "/boom" then Except.error "boom"
      else Except.ok internalError500) ⟨"/boom", "/boom"⟩ = internalError500 ∧
    startStaticServer (fun _ => false) "/srv/public"
      (fun r => if r.absPath == "/boom" then Except.error "boom" else Except.ok internalError500)
      [⟨"/", "/"⟩, ⟨"/boom", "/boom"⟩] =
      Except.error ("Root directory not found: " ++ getFullPath "/srv/public") :=
  ⟨((C8_loop_resilience (fun _ => true) "/srv/public"
      (fun r => if r.absPath == "/boom" then Except.error "boom" else Except.ok internalError500)
      [⟨"/", "/"⟩, ⟨"/boom", "/boom"⟩]).1 rfl).1,
   ((C8_loop_resilience (fun _ => true) "/srv/public"
      (fun r => if r.absPath == "/boom" then Except.error "boom" else Except.ok internalError500)
      [⟨"/", "/"⟩, ⟨"/boom", "/boom"⟩]).1 rfl).2.2.1 ⟨"/boom", "/boom"⟩ "boom" (by rfl),
   (C8_loop_resilience (fun _ => false) "/srv/public"
      (fun r => if r.absPath == "/boom" then Except.error "boom" else Except.ok internalError500)
      [⟨"/", "/"⟩, ⟨"/boom", "/boom"⟩]).2 rfl⟩

/-- C9: the local-file branch is deterministic — in the stateless embedding
two requests for the same unchanged file are the same function application,
so the responses are identical — and each response carries exactly the three
cache-disabling headers with these values. -/
theorem C9_idempotent_local (rootFull remoteOrigin : String)
    (fsTest : String → Bool) (fsRead : String → Option (List Nat))
    (remote : String → Option RemoteResp) (req : Request) (bytes : List Nat)
    (hchk : startsWithCI (getFullPath (localPathFor rootFull req.absPath)) rootFull = true)
    (hex : fsTest (getFullPath (localPathFor rootFull req.absPath)) = true)
    (hrd : fsRead (getFullPath (localPathFor rootFull req.absPath)) = some bytes) :
    (handleRequest rootFull remoteOrigin fsTest fsRead remote req).1 =
      (handleRequest rootFull remoteOrigin fsTest fsRead remote req).1 ∧
    (handleRequest rootFull remoteOrigin fsTest fsRead remote req).1.headers =
      [("Cache-Control", "no-cache, no-store, must-revalidate"),
       ("Pragma", "no-cache"),
       ("Expires", "0")] := by
  refine ⟨rfl, ?_⟩
  simp [handleRequest, hchk, hex, sendLocalFile, hrd, cacheHeaders]

/-- Witness for C9: the same concrete file request, answered with the three
no-cache headers. -/
theorem C9_idempotent_local_witness :
    (handleRequest "/srv/public" "https://example.com"
        (fun p => p == "/srv/public/index.html")
        (fun p => if p == "/srv/public/index.html" then some [60, 104] else none)
        (fun _ => none) ⟨"/", "/"⟩).1 =
      (handleRequest "/srv/public" "https://example.com"
        (fun p => p == "/srv/public/index.html")
        (fun p => if p == "/srv/public/index.html" then some [60, 104] else none)
        (fun _ => none) ⟨"/", "/"⟩).1 ∧
    (handleRequest "/srv/public" "https://example.com"
        (fun p => p == "/srv/public/index.html")
        (fun p => if p == "/srv/public/index.html" then some [60, 104] else none)
        (fun _ => none) ⟨"/", "/"⟩).1.headers =
      [("Cache-Control", "no-cache, no-store, must-revalidate"),
       ("Pragma", "no-cache"),
       ("Expires", "0")] :=
  C9_idempotent_local "/srv/public" "https://example.com"
    (fun p => p == "/srv/public/index.html")
    (fun p => if p == "/srv/public/index.html" then some [60, 104] else none)
    (fun _ => none) ⟨"/", "/"⟩ [60, 104] (by decide) (by decide) (by decide)

/-- C10: dispatch is exclusive — a rejected traversal produces no
filesystem or network event at all, an existing local file is served with
no outbound GET (local files take precedence over the remote origin), and
only the remaining case proxies, with exactly one outbound GET. -/
theorem C10_exclusive_dispatch (rootFull remoteOrigin : String)
    (fsTest : String → Bool) (fsRead : String → Option (List Nat))
    (remote : String → Option RemoteResp) (req : Request) :
    (startsWithCI (getFullPath (localPathFor rootFull req.absPath)) rootFull = false →
      (handleRequest rootFull remoteOrigin fsTest fsRead remote req).2 = [Event.closeStream]) ∧
    (startsWithCI (getFullPath (localPathFor rootFull req.absPath)) rootFull = true →
      fsTest (getFullPath (localPathFor rootFull req.absPath)) = true →
      countRemoteGets (handleRequest rootFull remoteOrigin fsTest fsRead remote req).2 = 0) ∧
    (startsWithCI (getFullPath (localPathFor rootFull req.absPath)) rootFull = true →
      fsTest (getFullPath (localPathFor rootFull req.absPath)) = false →
      countRemoteGets (handleRequest rootFull remoteOrigin fsTest fsRead remote req).2 = 1) := by
  refine ⟨?_, ?_, ?_⟩
  · intro hchk
    simp [handleRequest, hchk, sendText]
  · intro hchk hex
    cases hb : fsRead (getFullPath (localPathFor rootFull req.absPath)) with
    | none =>
      simp [handleRequest, hchk, hex, sendLocalFile, hb, sendText, countRemoteGets, isRemoteGet]
    | some bytes =>
      simp [handleRequest, hchk, hex, sendLocalFile, hb, countRemoteGets, isRemoteGet]
  · intro hchk hex
    cases hr : remote (trimEndSlashes remoteOrigin ++ req.rawUrl) with
    | none =>
      simp [handleRequest, hchk, hex, proxyRemoteRequest, hr, sendText, countRemoteGets,
        isRemoteGet]
    | some rr =>
      simp [handleRequest, hchk, hex, proxyRemoteRequest, hr, countRemoteGets, isRemoteGet]

/-- Witness for C10: each of the three branches at a concrete request. -/
theorem C10_exclusive_dispatch_witness :
    (handleRequest "/srv/public" "https://example.com" (fun _ => false) (fun _ => none)
      (fun _ => none) ⟨"/../../etc/shadow", "/../../etc/shadow"⟩).2 = [Event.closeStream] ∧
    countRemoteGets (handleRequest "/srv/public" "https://example.com"
      (fun p => p == "/srv/public/index.html")
      (fun p => if p == "/srv/public/index.html" then some [60, 104] else none)
      (fun _ => none) ⟨"/", "/"⟩).2 = 0 ∧
    countRemoteGets (handleRequest "/srv/public" "https://example.com" (fun _ => false)
      (fun _ => none) (fun _ => none) ⟨"/missing.css", "/missing.css"⟩).2 = 1 :=
  ⟨(C10_exclusive_dispatch "/srv/public" "https://example.com" (fun _ => false) (fun _ => none)
      (fun _ => none) ⟨"/../../etc/shadow", "/../../etc/shadow"⟩).1 (by decide),
   (C10_exclusive_dispatch "/srv/public" "https://example.com"
      (fun p => p == "/srv/public/index.html")
      (fun p => if p == "/srv/public/index.html" then some [60, 104] else none)
      (fun _ => none) ⟨"/", "/"⟩).2.1 (by decide) (by decide),
   (C10_exclusive_dispatch "/srv/public" "https://example.com" (fun _ => false) (fun _ => none)
      (fun _ => none) ⟨"/missing.css", "/missing.css"⟩).2.2 (by decide) (by decide)⟩

end ClimateProxy
